import Mathlib

/-!
Verification of the traffic-management core: the hybrid signal controller
(src/backend/controller_hybrid.py), the toy queueing engine
(src/backend/sim_engines/sumo_toy.py), the enhanced adapter engine
(src/backend/sim_engines/neat_adapter.py), the offline phase planner
(src/backend/adaptive_signal/controller.py) and the scenario registry
(src/backend/adaptive_signal/sensor_stub.py).

Python floats are modelled as rationals, Python ints as integers.  Random
arrival draws are modelled as an explicit per-tick oracle argument, and the
filesystem as an explicit file-existence oracle.
-/

namespace Traffic

/-- The four compass approaches feeding the intersection. -/
inductive Approach where
  | North
  | East
  | South
  | West
deriving DecidableEq, Fintype

/-- Python `int(x)` truncates a float toward zero. -/
def pytrunc (x : ℚ) : ℤ := if 0 ≤ x then ⌊x⌋ else ⌈x⌉

/-- Parameters of the hybrid controller (`HybridParams` in controller_hybrid.py).
The field `max_wait` is the fairness threshold called `max_wait_threshold`
in the specification. -/
structure HybridParams where
  min_green : ℚ
  max_green : ℚ
  gap : ℚ
  max_wait : ℚ
  yellow : ℤ
  all_red : ℤ

/-- The defaults of the `HybridParams` dataclass. -/
def defaultHybridParams : HybridParams :=
  { min_green := 7, max_green := 40, gap := 3, max_wait := 90, yellow := 3, all_red := 1 }

/-- Per-approach view consumed by the controller: queue length `q` and the
wait accumulator `max_wait`. -/
structure ApproachInfo where
  q : ℚ
  max_wait : ℚ
deriving DecidableEq

/-- The lightweight state mapping `decide` expects: the two phase groups
(the engine builds them in the order 0 then 1), the per-approach data, and
the scalar `approaches_since_last_arrival`. -/
structure ControllerState where
  phase0 : List Approach
  phase1 : List Approach
  approaches : Approach → ApproachInfo
  since_last_arrival : ℚ

/-- Lookup `state.phases[pid]` for `pid` in 0 or 1. -/
def phaseList (s : ControllerState) (i : Fin 2) : List Approach :=
  if i = 0 then s.phase0 else s.phase1

/-- The controller action: hold the current phase or switch. -/
inductive Action where
  | HOLD
  | SWITCH
deriving DecidableEq

/-- Rule 2 of `decide`: the current phase still has a queue, an arrival was
seen within the gap window, and the phase is below maximum green. -/
def gapOut (p : HybridParams) (s : ControllerState) (current : Fin 2) (t : ℚ) : Bool :=
  ((phaseList s current).any fun a => decide (0 < (s.approaches a).q))
    && decide (s.since_last_arrival < p.gap) && decide (t < p.max_green)

/-- One phase group contains an approach whose wait accumulator exceeds the
fairness threshold. -/
def overdueGroup (p : HybridParams) (s : ControllerState) (g : List Approach) : Bool :=
  g.any fun a => decide (p.max_wait < (s.approaches a).max_wait)

/-- Python `next(...)` over `phases.items()`: the first phase id (0 before 1)
containing an overdue approach, if any. -/
def overduePhase (p : HybridParams) (s : ControllerState) : Option (Fin 2) :=
  if overdueGroup p s s.phase0 then some 0
  else if overdueGroup p s s.phase1 then some 1
  else none

/-- Total queue of a phase group, truncated to int as in
`int(sum(approaches[a]["q"] for a in group))`. -/
def pressure (s : ControllerState) (g : List Approach) : ℤ :=
  pytrunc (g.map fun a => (s.approaches a).q).sum

/-- Python `max(pressures, key=pressures.get)` over the dict with keys in
insertion order 0 then 1: on a tie the first key, phase 0, wins. -/
def maxPressureTarget (s : ControllerState) : Fin 2 :=
  if pressure s s.phase0 < pressure s s.phase1 then 1 else 0

/-- The hybrid decision function `HybridController.decide`: minimum green,
then gap-out extension, then the fairness override, then max-pressure. -/
def HybridController.decide (p : HybridParams) (s : ControllerState) (current : Fin 2)
    (t : ℚ) : Action × Fin 2 :=
  if t < p.min_green then (Action.HOLD, current)
  else if gapOut p s current t then (Action.HOLD, current)
  else
    let target := maxPressureTarget s
    let mp := if target = current then (Action.HOLD, current) else (Action.SWITCH, target)
    match overduePhase p s with
    | some op => if op = current then mp else (Action.SWITCH, op)
    | none => mp

/-- Per-approach live state of the SumoToy engine: queue `q` (a float in the
source but always integer-valued: arrivals and service are integers), seconds
since the last arrival, and the wait accumulator `max_wait`. -/
structure ApproachQ where
  q : ℤ
  last_arrival : ℚ
  max_wait : ℚ
deriving DecidableEq

/-- The SumoToy engine state: transition countdown, current phase, time in
phase, clock, the yellow and all-red durations fixed at construction, and the
per-approach map. -/
structure SumoToyState where
  transition : ℤ
  cur_phase : Fin 2
  t_in_phase : ℤ
  time : ℤ
  yellow : ℤ
  all_red : ℤ
  state : Approach → ApproachQ

/-- The fixed phase table of both engines:
phase 0 is North and South, phase 1 is East and West. -/
def phaseApproaches (i : Fin 2) : List Approach :=
  if i = 0 then [Approach.North, Approach.South] else [Approach.East, Approach.West]

/-- Initial per-approach record written by `_reset_state`. -/
def initApproach : ApproachQ := { q := 0, last_arrival := 0, max_wait := 0 }

/-- The state after `SumoToy.reset()` (with the constructor values
yellow = 3 and all_red = 1). -/
def SumoToy.reset : SumoToyState :=
  { transition := 0, cur_phase := 0, t_in_phase := 0, time := 0,
    yellow := 3, all_red := 1, state := fun _ => initApproach }

/-- The arrivals block of `step`: add the drawn arrivals to the queue, reset
or advance `last_arrival` on the draw, then update `max_wait` from the
already-updated queue. -/
def applyArrival (arr : ℕ) (aq : ApproachQ) : ApproachQ :=
  let q2 := aq.q + (arr : ℤ)
  { q := q2,
    last_arrival := if 0 < arr then 0 else aq.last_arrival + 1,
    max_wait := if 0 < q2 then aq.max_wait + 1 else 0 }

/-- The service block of `step` for one approach of the green phase: serve
`min(int(q), 2)` vehicles, and clamp the queue at zero (also clearing
`max_wait`) when it empties.  Returns the new record and the served count. -/
def serveApproach (aq : ApproachQ) : ApproachQ × ℤ :=
  let s := min aq.q 2
  let q2 := aq.q - s
  if q2 ≤ 0 then ({ q := 0, last_arrival := aq.last_arrival, max_wait := 0 }, s)
  else ({ aq with q := q2 }, s)

/-- One tick of `SumoToy.step`, with the Poisson draws supplied as the oracle
`arr`.  Returns the next state and the per-approach served counts (the
rolling metric histories are not modelled; no claim concerns `metrics`). -/
def SumoToy.stepServed (st : SumoToyState) (arr : Approach → ℕ) :
    SumoToyState × (Approach → ℤ) :=
  let afterArr : Approach → ApproachQ := fun a => applyArrival (arr a) (st.state a)
  if st.transition = 0 then
    ({ st with
        time := st.time + 1,
        t_in_phase := st.t_in_phase + 1,
        state := fun a =>
          if a ∈ phaseApproaches st.cur_phase then (serveApproach (afterArr a)).1
          else afterArr a },
     fun a => if a ∈ phaseApproaches st.cur_phase then (serveApproach (afterArr a)).2 else 0)
  else
    ({ st with
        time := st.time + 1,
        transition := st.transition - 1,
        t_in_phase := if st.transition - 1 ≤ 0 then 0 else st.t_in_phase,
        state := afterArr },
     fun _ => 0)

/-- The state part of one `step` tick. -/
def SumoToy.step (st : SumoToyState) (arr : Approach → ℕ) : SumoToyState :=
  (SumoToy.stepServed st arr).1

/-- `SumoToy.switch_phase`: unconditionally start the yellow plus all-red
countdown and flip the phase. -/
def SumoToy.switchPhase (st : SumoToyState) : SumoToyState :=
  { st with transition := st.yellow + st.all_red, cur_phase := 1 - st.cur_phase }

/-- One external operation on the engine: a tick (with its arrival draws) or
a switch request. -/
inductive SumoOp where
  | tick (arr : Approach → ℕ)
  | switch

/-- Apply one operation. -/
def SumoToy.applyOp (st : SumoToyState) : SumoOp → SumoToyState
  | SumoOp.tick arr => SumoToy.step st arr
  | SumoOp.switch => SumoToy.switchPhase st

/-- Run a sequence of operations from a state. -/
def SumoToy.run (st : SumoToyState) : List SumoOp → SumoToyState
  | [] => st
  | op :: ops => SumoToy.run (SumoToy.applyOp st op) ops

/-- Every approach queue of a state is non-negative. -/
def qNonneg (st : SumoToyState) : Prop := ∀ a, 0 ≤ (st.state a).q

/-- The transition-lock behaviour after a `switch` from a non-transitioning
state: four consecutive ticks serve nothing anywhere; after the fourth tick
the countdown has reached zero and `t_in_phase` is reset; the fifth tick
serves `min(queue, 2)` on each approach of the new phase and restarts the
green timer. -/
def transitionLockHolds (st : SumoToyState) (arr : Fin 5 → Approach → ℕ) : Prop :=
  let s0 := SumoToy.switchPhase st
  let s1 := SumoToy.step s0 (arr 0)
  let s2 := SumoToy.step s1 (arr 1)
  let s3 := SumoToy.step s2 (arr 2)
  let s4 := SumoToy.step s3 (arr 3)
  (∀ a, (SumoToy.stepServed s0 (arr 0)).2 a = 0) ∧
  (∀ a, (SumoToy.stepServed s1 (arr 1)).2 a = 0) ∧
  (∀ a, (SumoToy.stepServed s2 (arr 2)).2 a = 0) ∧
  (∀ a, (SumoToy.stepServed s3 (arr 3)).2 a = 0) ∧
  s4.transition = 0 ∧
  s4.t_in_phase = 0 ∧
  s4.cur_phase = 1 - st.cur_phase ∧
  (∀ a, a ∈ phaseApproaches (1 - st.cur_phase) →
    (SumoToy.stepServed s4 (arr 4)).2 a = min ((s4.state a).q + (arr 4 a : ℤ)) 2) ∧
  (SumoToy.step s4 (arr 4)).t_in_phase = 1

/-- Per-approach state of the enhanced adapter engine
(`EnhancedNeatAdapter` in neat_adapter.py); the per-class vehicle counts are
kept as one function. -/
structure NeatApproach where
  q : ℤ
  last_arrival : ℚ
  max_wait : ℚ
  total_arrivals : ℤ
  total_served : ℤ
  vehicle_types : Fin 5 → ℤ

/-- Signal-and-traffic state of the enhanced adapter engine. -/
structure NeatAdapterState where
  simulation_time : ℤ
  current_phase : Fin 2
  time_in_phase : ℚ
  transition_timer : ℤ
  state : Approach → NeatApproach

/-- `EnhancedNeatAdapter._switch_phase`: guarded by the transition timer;
only when the timer is zero does it start the 4-second countdown and flip
the phase. -/
def EnhancedNeatAdapter.switchPhase (st : NeatAdapterState) : NeatAdapterState :=
  if st.transition_timer = 0 then
    { st with transition_timer := 4, current_phase := 1 - st.current_phase }
  else st

/-- Configuration of the offline phase planner
(`ControllerConfig` in adaptive_signal/controller.py). -/
structure ControllerConfig where
  cycle_length : ℚ
  min_green : ℚ
  max_green : ℚ
  baseline_green : ℚ
  responsiveness : ℚ
deriving DecidableEq

/-- The dataclass defaults of `ControllerConfig`. -/
def defaultControllerConfig : ControllerConfig :=
  { cycle_length := 80, min_green := 12, max_green := 55, baseline_green := 40,
    responsiveness := 3 / 5 }

/-- The planner output (`PhasePlan`); the human-readable `reason` string is
not modelled, no claim concerns it. -/
structure PhasePlan where
  ns_green : ℚ
  ew_green : ℚ
  predicted_delay_reduction : ℚ
deriving DecidableEq

/-- The `_clamp` helper: `max(minimum, min(maximum, value))`. -/
def clamp (value minimum maximum : ℚ) : ℚ := max minimum (min maximum value)

/-- North-south demand: counts plus half-weighted queues over North and
South (missing map keys read as zero, so counts and queues are total maps). -/
def nsDemand (counts queues : Approach → ℚ) : ℚ :=
  (counts Approach.North + counts Approach.South)
    + ((1 / 2) * queues Approach.North + (1 / 2) * queues Approach.South)

/-- East-west demand, symmetric to `nsDemand`. -/
def ewDemand (counts queues : Approach → ℚ) : ℚ :=
  (counts Approach.East + counts Approach.West)
    + ((1 / 2) * queues Approach.East + (1 / 2) * queues Approach.West)

/-- The delay proxy `_estimate_delay`: zero for zero demand, otherwise
`demand * max(0, 1 - green/cycle_length) * cycle_length / 2`. -/
def estimate_delay (demand green cycle_length : ℚ) : ℚ :=
  if demand = 0 then 0
  else demand * max 0 (1 - green / cycle_length) * cycle_length / 2

/-- The offline planner `compute_phase_plan`: return the baseline split for
zero total demand; otherwise split the cycle by the responsiveness-biased
demand ratio, clamp, shift the deficit back when the east-west share drops
below minimum green, and estimate the delay reduction against the fixed
baseline split. -/
def compute_phase_plan (counts queues : Approach → ℚ) (config : ControllerConfig) :
    PhasePlan :=
  let ns_demand := nsDemand counts queues
  let ew_demand := ewDemand counts queues
  let total_demand := ns_demand + ew_demand
  if total_demand = 0 then
    { ns_green := config.baseline_green, ew_green := config.baseline_green,
      predicted_delay_reduction := 0 }
  else
    let ns_ratio := ns_demand / total_demand
    let ns_green0 := clamp
      (config.cycle_length *
        (config.responsiveness * ns_ratio + (1 - config.responsiveness) * (1 / 2)))
      config.min_green config.max_green
    let ew_green0 := config.cycle_length - ns_green0
    let greens :=
      if ew_green0 < config.min_green then
        let adjustment := config.min_green - ew_green0
        (max config.min_green (ns_green0 - adjustment), ew_green0 + adjustment)
      else (ns_green0, ew_green0)
    let baseline_delay :=
      estimate_delay ns_demand config.baseline_green config.cycle_length
        + estimate_delay ew_demand config.baseline_green config.cycle_length
    let adaptive_delay :=
      estimate_delay ns_demand greens.1 config.cycle_length
        + estimate_delay ew_demand greens.2 config.cycle_length
    let reduction_pct :=
      if 0 < baseline_delay then
        max 0 ((baseline_delay - adaptive_delay) / baseline_delay * 100)
      else 0
    { ns_green := greens.1, ew_green := greens.2,
      predicted_delay_reduction := reduction_pct }

/-- Sensor configuration of the scenario registry
(`SensorConfig` in sensor_stub.py). -/
structure SensorConfig where
  base_flow : Approach → ℚ
  variability : ℚ
  seed : Option ℤ

/-- One named preset of `SCENARIO_PRESETS`. -/
structure ScenarioPreset where
  config : SensorConfig
  description : String
  recording : Option String

/-- The error taxonomy of the scenario accessors: `unknownScenario` models
the KeyError raised for a name outside the registry, the other two model the
two FileNotFoundError variants of `load_recorded_counts`. -/
inductive ScenarioError where
  | unknownScenario (name : String)
  | noRecording (name : String)
  | recordingMissing (path : String)
deriving DecidableEq

/-- The first preset of the registry. -/
def morningPeak : ScenarioPreset :=
  { config :=
      { base_flow := fun a =>
          match a with
          | Approach.North => 24
          | Approach.South => 28
          | Approach.East => 12
          | Approach.West => 9,
        variability := 1 / 4, seed := some 42 },
    description := "Heavy north/south commuter surge with moderate cross traffic.",
    recording := some "morning_peak.csv" }

/-- The second preset of the registry. -/
def eveningBalanced : ScenarioPreset :=
  { config :=
      { base_flow := fun a =>
          match a with
          | Approach.North => 12
          | Approach.South => 14
          | Approach.East => 16
          | Approach.West => 17,
        variability := 9 / 50, seed := some 21 },
    description := "Post-rush steady volumes on all legs.",
    recording := some "evening_clear.csv" }

/-- The third preset of the registry. -/
def incidentEastbound : ScenarioPreset :=
  { config :=
      { base_flow := fun a =>
          match a with
          | Approach.North => 14
          | Approach.South => 13
          | Approach.East => 34
          | Approach.West => 9,
        variability := 3 / 10, seed := some 7 },
    description := "Collision eastbound causing spill-back and queue growth.",
    recording := some "incident_east.csv" }

/-- The module-level preset registry `SCENARIO_PRESETS`. -/
def SCENARIO_PRESETS : List (String × ScenarioPreset) :=
  [("Morning peak", morningPeak),
   ("Evening balanced", eveningBalanced),
   ("Incident eastbound", incidentEastbound)]

/-- `SCENARIO_PRESETS.get(name)`. -/
def findPreset (name : String) : Option ScenarioPreset :=
  (SCENARIO_PRESETS.find? fun p => p.1 == name).map Prod.snd

/-- `scenario_config`: raise the unknown-scenario error for a name outside
the registry, otherwise build the `SensorConfig` of the preset. -/
def scenario_config (name : String) : Except ScenarioError SensorConfig :=
  match findPreset name with
  | none => Except.error (ScenarioError.unknownScenario name)
  | some preset => Except.ok preset.config

/-- `load_recorded_counts`, with the filesystem as the oracle `fileExists`:
unknown names raise the unknown-scenario error; a preset without a recording
raises `noRecording`; a configured recording whose file is absent raises
`recordingMissing`; on success the recording path is returned (parsing the
CSV itself is out of scope). -/
def load_recorded_counts (fileExists : String → Bool) (name : String) :
    Except ScenarioError String :=
  match findPreset name with
  | none => Except.error (ScenarioError.unknownScenario name)
  | some preset =>
    match preset.recording with
    | none => Except.error (ScenarioError.noRecording name)
    | some filename =>
      if fileExists filename then Except.ok filename
      else Except.error (ScenarioError.recordingMissing filename)

/-- Controller state with the engine's standard phase table. -/
def mkState (f : Approach → ApproachInfo) (since : ℚ) : ControllerState :=
  { phase0 := [Approach.North, Approach.South],
    phase1 := [Approach.East, Approach.West],
    approaches := f, since_last_arrival := since }

/-- Empty intersection: all queues and wait accumulators zero, no arrival
for ten seconds. -/
def tieState : ControllerState := mkState (fun _ => { q := 0, max_wait := 0 }) 10

/-- North holds ten vehicles and has been congested for 100 seconds; East is
empty but its wait accumulator reads 95 seconds; last arrival five seconds
ago. -/
def maskedFairnessState : ControllerState :=
  mkState
    (fun a =>
      match a with
      | Approach.North => { q := 10, max_wait := 100 }
      | Approach.East => { q := 0, max_wait := 95 }
      | _ => { q := 0, max_wait := 0 })
    5

/-- North holds twenty vehicles (current phase pressure dominates); East
holds five and its wait accumulator reads 95 seconds; last arrival five
seconds ago. -/
def overdueEastState : ControllerState :=
  mkState
    (fun a =>
      match a with
      | Approach.North => { q := 20, max_wait := 0 }
      | Approach.East => { q := 5, max_wait := 95 }
      | _ => { q := 0, max_wait := 0 })
    5

/-- A mid-transition adapter state used to instantiate the no-op theorem. -/
def neatMidTransition : NeatAdapterState :=
  { simulation_time := 17, current_phase := 1, time_in_phase := 0,
    transition_timer := 2,
    state := fun _ =>
      { q := 3, last_arrival := 1, max_wait := 4, total_arrivals := 9,
        total_served := 6, vehicle_types := fun _ => 1 } }

/-- The counts of the concrete planner scenario of the specification:
ten vehicles each on North and South, none on East and West. -/
def scenarioCounts : Approach → ℚ :=
  fun a =>
    match a with
    | Approach.North => 10
    | Approach.South => 10
    | _ => 0

/-- The zero demand map. -/
def zeroDemand : Approach → ℚ := fun _ => 0

/-- A planner configuration whose baseline split does not fill the cycle:
an 80-second cycle with a 30-second baseline green per axis. -/
def badConfig : ControllerConfig :=
  { cycle_length := 80, min_green := 12, max_green := 55, baseline_green := 30,
    responsiveness := 3 / 5 }

/-- Shared lemma: a group whose wait accumulators are all within the
threshold is not overdue. -/
theorem overdueGroup_eq_false (p : HybridParams) (s : ControllerState) (g : List Approach)
    (h : ∀ a ∈ g, (s.approaches a).max_wait ≤ p.max_wait) :
    overdueGroup p s g = false := by
  unfold overdueGroup
  rw [List.any_eq_false]
  intro a ha
  simpa using not_lt.mpr (h a ha)

/-- Shared lemma: a group containing an approach beyond the threshold is
overdue. -/
theorem overdueGroup_eq_true (p : HybridParams) (s : ControllerState) (g : List Approach)
    (h : ∃ a ∈ g, p.max_wait < (s.approaches a).max_wait) :
    overdueGroup p s g = true := by
  rcases h with ⟨a, ha, hlt⟩
  unfold overdueGroup
  rw [List.any_eq_true]
  exact ⟨a, ha, by simpa using hlt⟩

/-- C5: minimum green is inviolable — for every controller state, phase and
time in phase strictly below `min_green`, `HybridController.decide` returns
HOLD with the current phase, hence never SWITCH. -/
theorem decide_min_green_hold (p : HybridParams) (s : ControllerState) (current : Fin 2)
    (t : ℚ) (h : t < p.min_green) :
    HybridController.decide p s current t = (Action.HOLD, current) := by
  unfold HybridController.decide
  rw [if_pos h]

/-- Witness for C5 at the default parameters, the empty intersection, phase
zero and three seconds into the phase. -/
theorem decide_min_green_hold_witness :
    (3 : ℚ) < defaultHybridParams.min_green ∧
      HybridController.decide defaultHybridParams tieState 0 3 = (Action.HOLD, 0) :=
  ⟨by norm_num [defaultHybridParams],
   decide_min_green_hold defaultHybridParams tieState 0 3
     (by norm_num [defaultHybridParams])⟩

/-- C10: for every parameters, state, phase and time, the decision pairs
HOLD exactly with a target equal to the current phase: HOLD always carries
the current phase, and SWITCH always carries a different phase. -/
theorem decide_hold_iff_target_eq (p : HybridParams) (s : ControllerState)
    (current : Fin 2) (t : ℚ) :
    ((HybridController.decide p s current t).1 = Action.HOLD ↔
      (HybridController.decide p s current t).2 = current) := by
  unfold HybridController.decide
  split_ifs with h1 h2
  · simp
  · simp
  · cases hop : overduePhase p s with
    | none =>
      dsimp only
      split_ifs with h3
      · simp [h3]
      · simp [h3]
    | some op =>
      dsimp only
      split_ifs with h4 h5
      · simp [h4]
      · simp [h5]
      · simp [h4]

/-- C2 counterexample: at the default parameters, the empty intersection
(both phases tie at total queue zero, no gap-out, no accumulator above the
threshold) with current phase 1 at exactly minimum green, `decide` returns
SWITCH to phase 0, not HOLD as the claim states. -/
theorem decide_tie_phase1_switches :
    ¬ ((7 : ℚ) < defaultHybridParams.min_green) ∧
    gapOut defaultHybridParams tieState 1 7 = false ∧
    (∀ a, (tieState.approaches a).max_wait ≤ defaultHybridParams.max_wait) ∧
    (tieState.phase0.map fun a => (tieState.approaches a).q).sum =
      (tieState.phase1.map fun a => (tieState.approaches a).q).sum ∧
    HybridController.decide defaultHybridParams tieState 1 7 = (Action.SWITCH, 0) := by
  refine ⟨by norm_num [defaultHybridParams], by decide, ?_,
    by simp [tieState, mkState], ?_⟩
  · intro a
    cases a <;> norm_num [tieState, mkState, defaultHybridParams]
  · norm_num [HybridController.decide, gapOut, overduePhase, overdueGroup,
      maxPressureTarget, pressure, pytrunc, phaseList, tieState, mkState,
      defaultHybridParams]

/-- C2 amended: under the stated hypotheses a max-pressure tie selects phase
0 (the first dict key wins in Python `max`), so `decide` holds only when the
current phase is 0 and switches to phase 0 when the current phase is 1. -/
theorem decide_tie_breaks_to_phase_zero (p : HybridParams) (s : ControllerState)
    (current : Fin 2) (t : ℚ)
    (hmin : ¬ t < p.min_green) (hgap : gapOut p s current t = false)
    (hw : ∀ a, (s.approaches a).max_wait ≤ p.max_wait)
    (htie : (s.phase0.map fun a => (s.approaches a).q).sum =
            (s.phase1.map fun a => (s.approaches a).q).sum) :
    HybridController.decide p s current t =
      if current = 0 then (Action.HOLD, 0) else (Action.SWITCH, 0) := by
  have hover : overduePhase p s = none := by
    unfold overduePhase
    rw [overdueGroup_eq_false p s s.phase0 fun a _ => hw a,
      overdueGroup_eq_false p s s.phase1 fun a _ => hw a]
    rfl
  have htarget : maxPressureTarget s = 0 := by
    unfold maxPressureTarget pressure
    rw [htie, if_neg (lt_irrefl _)]
  unfold HybridController.decide
  rw [if_neg hmin, if_neg (by simp [hgap])]
  dsimp only
  rw [hover, htarget]
  by_cases hc : current = 0
  · subst hc
    simp
  · rw [if_neg fun h => hc h.symm, if_neg hc]

/-- Witness for the amended C2 at the empty intersection, seven seconds into
phase 0: the tie keeps phase 0. -/
theorem decide_tie_breaks_to_phase_zero_witness :
    HybridController.decide defaultHybridParams tieState 0 7 =
      if (0 : Fin 2) = 0 then (Action.HOLD, 0) else (Action.SWITCH, 0) :=
  decide_tie_breaks_to_phase_zero defaultHybridParams tieState 0 7
    (by norm_num [defaultHybridParams]) (by decide)
    (fun a => by cases a <;> norm_num [tieState, mkState, defaultHybridParams])
    (by simp [tieState, mkState])

/-- C4 counterexample: at the default parameters with current phase 0 fifty
seconds into green, East (phase 1) is over the fairness threshold, yet North
(phase 0, the current phase, with the strictly greater queue) is over the
threshold too; the fairness rule picks the first overdue phase — the current
one — so `decide` falls through to max-pressure and returns HOLD instead of
the SWITCH to phase 1 the claim demands. -/
theorem fairness_masked_by_current_overdue :
    defaultHybridParams.max_wait <
        (maskedFairnessState.approaches Approach.East).max_wait ∧
    Approach.East ∈ maskedFairnessState.phase1 ∧
    pressure maskedFairnessState maskedFairnessState.phase1 <
      pressure maskedFairnessState maskedFairnessState.phase0 ∧
    HybridController.decide defaultHybridParams maskedFairnessState 0 50 =
      (Action.HOLD, 0) := by
  refine ⟨by norm_num [maskedFairnessState, mkState, defaultHybridParams],
    by decide, ?_, ?_⟩
  · norm_num [pressure, pytrunc, maskedFairnessState, mkState]
  · norm_num [HybridController.decide, gapOut, overduePhase, overdueGroup,
      maxPressureTarget, pressure, pytrunc, phaseList, maskedFairnessState,
      mkState, defaultHybridParams]

/-- C4 amended: when minimum green has elapsed, gap-out does not extend, no
approach of the current phase is over the fairness threshold, and some
approach of the other phase is, `decide` switches to the other phase — in
particular regardless of which phase has the greater total queue. -/
theorem fairness_switch_when_other_overdue (p : HybridParams) (s : ControllerState)
    (current : Fin 2) (t : ℚ)
    (hmin : ¬ t < p.min_green) (hgap : gapOut p s current t = false)
    (hcur : ∀ a ∈ phaseList s current, (s.approaches a).max_wait ≤ p.max_wait)
    (hother : ∃ a ∈ phaseList s (1 - current), p.max_wait < (s.approaches a).max_wait) :
    HybridController.decide p s current t = (Action.SWITCH, 1 - current) := by
  unfold HybridController.decide
  rw [if_neg hmin, if_neg (by simp [hgap])]
  dsimp only
  fin_cases current
  · have h0 : overdueGroup p s s.phase0 = false :=
      overdueGroup_eq_false p s s.phase0 (by simpa [phaseList] using hcur)
    have h1 : overdueGroup p s s.phase1 = true :=
      overdueGroup_eq_true p s s.phase1
        (by simpa [phaseList, show (1 - 0 : Fin 2) = 1 from rfl] using hother)
    have hov : overduePhase p s = some 1 := by
      unfold overduePhase
      rw [h0, h1]
      rfl
    rw [hov]
    rfl
  · have h1 : overdueGroup p s s.phase1 = false :=
      overdueGroup_eq_false p s s.phase1 (by simpa [phaseList] using hcur)
    have h0 : overdueGroup p s s.phase0 = true :=
      overdueGroup_eq_true p s s.phase0
        (by simpa [phaseList, show (1 - 1 : Fin 2) = 0 from rfl] using hother)
    have hov : overduePhase p s = some 0 := by
      unfold overduePhase
      rw [h0]
      rfl
    rw [hov]
    rfl

/-- Witness for the amended C4: ten seconds into phase 0, North queues
twenty vehicles (current pressure dominates) while East has accumulated 95
seconds of congestion; the controller switches to phase 1. -/
theorem fairness_switch_when_other_overdue_witness :
    HybridController.decide defaultHybridParams overdueEastState 0 10 =
      (Action.SWITCH, 1) :=
  fairness_switch_when_other_overdue defaultHybridParams overdueEastState 0 10
    (by norm_num [defaultHybridParams]) (by decide) (by decide) (by decide)

/-- C1 counterexample: after one `switch_phase` from the reset SumoToy state
the engine is mid-transition (countdown 4 > 0), yet a second `switch_phase`
flips `cur_phase` again and restarts the countdown — not a no-op. -/
theorem sumo_switch_during_transition_not_noop :
    0 < (SumoToy.switchPhase SumoToy.reset).transition ∧
    (SumoToy.switchPhase (SumoToy.switchPhase SumoToy.reset)).cur_phase ≠
      (SumoToy.switchPhase SumoToy.reset).cur_phase := by
  constructor
  · norm_num [SumoToy.switchPhase, SumoToy.reset]
  · decide

/-- C1 amended: the no-op guard holds for the enhanced adapter engine — when
its transition timer is positive, `_switch_phase` leaves the whole state
(phase, timers, clock and every approach record) unchanged. -/
theorem neat_switch_during_transition_noop (st : NeatAdapterState)
    (h : 0 < st.transition_timer) :
    EnhancedNeatAdapter.switchPhase st = st := by
  unfold EnhancedNeatAdapter.switchPhase
  rw [if_neg h.ne']

/-- Witness for the amended C1 at a concrete mid-transition adapter state. -/
theorem neat_switch_during_transition_noop_witness :
    (0 : ℤ) < neatMidTransition.transition_timer ∧
      EnhancedNeatAdapter.switchPhase neatMidTransition = neatMidTransition :=
  ⟨by norm_num [neatMidTransition],
   neat_switch_during_transition_noop neatMidTransition
     (by norm_num [neatMidTransition])⟩

/-- Shared lemma: the min-green shift of the planner preserves the green
total whenever the cycle accommodates two minimum greens. -/
theorem split_sum (c m x : ℚ) (hm : 2 * m ≤ c) :
    (if c - x < m then (max m (x - (m - (c - x))), (c - x) + (m - (c - x)))
      else (x, c - x)).1 +
    (if c - x < m then (max m (x - (m - (c - x))), (c - x) + (m - (c - x)))
      else (x, c - x)).2 = c := by
  split_ifs with h1
  · dsimp only
    rw [max_eq_right (by linarith)]
    ring
  · dsimp only
    ring

/-- C3 counterexample: with zero demand and a configuration whose baseline
green does not fill half the cycle (baseline 30, cycle 80), the returned
plan sums to 60, not the cycle length. -/
theorem phase_plan_sum_breaks_for_short_baseline :
    (compute_phase_plan zeroDemand zeroDemand badConfig).ns_green +
      (compute_phase_plan zeroDemand zeroDemand badConfig).ew_green ≠
      badConfig.cycle_length := by
  norm_num [compute_phase_plan, nsDemand, ewDemand, zeroDemand, badConfig]

/-- C3 amended: for every counts and queues map, the plan greens sum to the
cycle length provided the configuration satisfies
`2 * baseline_green = cycle_length` (so the zero-demand branch fills the
cycle) and `2 * min_green ≤ cycle_length` (so the min-green shift never
overshoots); the equality is exact in the rational model. -/
theorem phase_plan_green_sum_eq_cycle (counts queues : Approach → ℚ)
    (config : ControllerConfig)
    (hb : 2 * config.baseline_green = config.cycle_length)
    (hm : 2 * config.min_green ≤ config.cycle_length)
    (hc : 0 < config.cycle_length) :
    (compute_phase_plan counts queues config).ns_green +
      (compute_phase_plan counts queues config).ew_green = config.cycle_length := by
  simp only [compute_phase_plan]
  by_cases h0 : nsDemand counts queues + ewDemand counts queues = 0
  · rw [if_pos h0]
    dsimp only
    linarith
  · rw [if_neg h0]
    dsimp only
    exact split_sum _ _ _ hm

/-- Witness for the amended C3 at the default configuration and the
north-south scenario demand. -/
theorem phase_plan_green_sum_eq_cycle_witness :
    (compute_phase_plan scenarioCounts zeroDemand defaultControllerConfig).ns_green +
      (compute_phase_plan scenarioCounts zeroDemand defaultControllerConfig).ew_green =
      defaultControllerConfig.cycle_length :=
  phase_plan_green_sum_eq_cycle scenarioCounts zeroDemand defaultControllerConfig
    (by norm_num [defaultControllerConfig]) (by norm_num [defaultControllerConfig])
    (by norm_num [defaultControllerConfig])

/-- C7: the concrete planner scenario — twenty vehicles north-south, none
east-west, default configuration: demands 20 and 0, ratio 1, unclamped green
64 clamped to 55, east-west green 25, and a strictly positive predicted
delay reduction (the model computes exactly 37.5 percent). -/
theorem phase_plan_concrete_scenario :
    nsDemand scenarioCounts zeroDemand = 20 ∧
    ewDemand scenarioCounts zeroDemand = 0 ∧
    nsDemand scenarioCounts zeroDemand /
      (nsDemand scenarioCounts zeroDemand + ewDemand scenarioCounts zeroDemand) = 1 ∧
    defaultControllerConfig.cycle_length *
      (defaultControllerConfig.responsiveness * 1 +
        (1 - defaultControllerConfig.responsiveness) * (1 / 2)) = 64 ∧
    clamp 64 defaultControllerConfig.min_green defaultControllerConfig.max_green = 55 ∧
    (compute_phase_plan scenarioCounts zeroDemand defaultControllerConfig).ns_green = 55 ∧
    (compute_phase_plan scenarioCounts zeroDemand defaultControllerConfig).ew_green = 25 ∧
    0 < (compute_phase_plan scenarioCounts zeroDemand
        defaultControllerConfig).predicted_delay_reduction := by
  norm_num [compute_phase_plan, nsDemand, ewDemand, clamp, estimate_delay,
    scenarioCounts, zeroDemand, defaultControllerConfig, max_def, min_def]

/-- Shared lemma: one tick while mid-transition only counts the tick down
(resetting the green timer when it reaches zero), applies the arrivals, and
serves nothing. -/
theorem stepServed_transition_ne (st : SumoToyState) (arr : Approach → ℕ)
    (h : ¬ st.transition = 0) :
    SumoToy.stepServed st arr =
      ({ st with
          time := st.time + 1,
          transition := st.transition - 1,
          t_in_phase := if st.transition - 1 ≤ 0 then 0 else st.t_in_phase,
          state := fun a => applyArrival (arr a) (st.state a) },
       fun _ => 0) := by
  simp only [SumoToy.stepServed, if_neg h]

/-- Shared lemma: one tick while actively serving applies the arrivals, then
serves each approach of the green phase and advances the green timer. -/
theorem stepServed_transition_eq (st : SumoToyState) (arr : Approach → ℕ)
    (h : st.transition = 0) :
    SumoToy.stepServed st arr =
      ({ st with
          time := st.time + 1,
          t_in_phase := st.t_in_phase + 1,
          state := fun a =>
            if a ∈ phaseApproaches st.cur_phase then
              (serveApproach (applyArrival (arr a) (st.state a))).1
            else applyArrival (arr a) (st.state a) },
       fun a =>
         if a ∈ phaseApproaches st.cur_phase then
           (serveApproach (applyArrival (arr a) (st.state a))).2
         else 0) := by
  simp only [SumoToy.stepServed, if_pos h]

/-- Shared lemma: the served count of one approach is `min(queue, 2)`. -/
theorem serveApproach_served (aq : ApproachQ) : (serveApproach aq).2 = min aq.q 2 := by
  unfold serveApproach
  dsimp only
  split_ifs <;> rfl

/-- Shared lemma: arrivals keep a non-negative queue non-negative. -/
theorem applyArrival_q_nonneg (arr : ℕ) (aq : ApproachQ) (h : 0 ≤ aq.q) :
    0 ≤ (applyArrival arr aq).q := by
  unfold applyArrival
  dsimp only
  omega

/-- Shared lemma: service keeps the queue non-negative (it is clamped at
zero when it empties). -/
theorem serveApproach_q_nonneg (aq : ApproachQ) : 0 ≤ (serveApproach aq).1.q := by
  unfold serveApproach
  dsimp only
  split_ifs with hq
  · exact le_refl 0
  · dsimp only
    omega

/-- Shared lemma: one tick preserves queue non-negativity. -/
theorem qNonneg_step (st : SumoToyState) (arr : Approach → ℕ) (h : qNonneg st) :
    qNonneg (SumoToy.step st arr) := by
  intro a
  unfold SumoToy.step
  by_cases ht : st.transition = 0
  · rw [stepServed_transition_eq st arr ht]
    dsimp only
    split_ifs with hm
    · exact serveApproach_q_nonneg _
    · exact applyArrival_q_nonneg _ _ (h a)
  · rw [stepServed_transition_ne st arr ht]
    dsimp only
    exact applyArrival_q_nonneg _ _ (h a)

/-- Shared lemma: every operation preserves queue non-negativity. -/
theorem qNonneg_applyOp (st : SumoToyState) (op : SumoOp) (h : qNonneg st) :
    qNonneg (SumoToy.applyOp st op) := by
  cases op with
  | tick arr => exact qNonneg_step st arr h
  | switch => exact fun a => h a

/-- Shared lemma: any run from a non-negative state stays non-negative. -/
theorem qNonneg_run (st : SumoToyState) (h : qNonneg st) (ops : List SumoOp) :
    qNonneg (SumoToy.run st ops) := by
  induction ops generalizing st with
  | nil => exact h
  | cons op ops ih => exact ih _ (qNonneg_applyOp st op h)

/-- C8: starting from the reset state, after every sequence of `step` (with
arbitrary arrival draws) and `switch` calls, every approach queue of the
SumoToy engine is non-negative. -/
theorem run_queues_nonneg (ops : List SumoOp) (a : Approach) :
    0 ≤ ((SumoToy.run SumoToy.reset ops).state a).q :=
  qNonneg_run SumoToy.reset (fun _ => le_refl 0) ops a

/-- Shared lemma: the state part of a mid-transition tick. -/
theorem step_eq_transition_ne (st : SumoToyState) (arr : Approach → ℕ)
    (h : ¬ st.transition = 0) :
    SumoToy.step st arr =
      { st with
          time := st.time + 1,
          transition := st.transition - 1,
          t_in_phase := if st.transition - 1 ≤ 0 then 0 else st.t_in_phase,
          state := fun a => applyArrival (arr a) (st.state a) } := by
  rw [SumoToy.step, stepServed_transition_ne st arr h]

/-- Shared lemma: a mid-transition tick serves nothing. -/
theorem served_transition_ne (st : SumoToyState) (arr : Approach → ℕ)
    (h : ¬ st.transition = 0) (a : Approach) :
    (SumoToy.stepServed st arr).2 a = 0 := by
  rw [stepServed_transition_ne st arr h]

/-- Shared lemma: arrivals add to the queue. -/
theorem applyArrival_q (arr : ℕ) (aq : ApproachQ) :
    (applyArrival arr aq).q = aq.q + (arr : ℤ) := rfl

/-- C6: from any state with a zero transition countdown (and the engine
constants yellow 3 and all-red 1), `switch_phase` followed by four ticks
serves zero vehicles everywhere; the fourth tick brings the countdown to
zero and resets `time_in_phase`; the fifth tick serves `min(queue, 2)` on
each approach of the new phase and advances the green timer to one. -/
theorem switch_transition_lock (st : SumoToyState) (arr : Fin 5 → Approach → ℕ)
    (h0 : st.transition = 0) (hy : st.yellow = 3) (hr : st.all_red = 1) :
    transitionLockHolds st arr := by
  unfold transitionLockHolds
  dsimp only
  set s0 := SumoToy.switchPhase st with hs0
  have t0 : s0.transition = 4 := by
    rw [hs0]
    simp [SumoToy.switchPhase, hy, hr]
  have c0 : s0.cur_phase = 1 - st.cur_phase := by rw [hs0]; rfl
  have n0 : ¬ s0.transition = 0 := by rw [t0]; norm_num
  set s1 := SumoToy.step s0 (arr 0) with hs1
  have E1 := step_eq_transition_ne s0 (arr 0) n0
  have t1 : s1.transition = 3 := by rw [hs1, E1]; dsimp only; rw [t0]; norm_num
  have c1 : s1.cur_phase = s0.cur_phase := by rw [hs1, E1]
  have f1 : s1.t_in_phase = s0.t_in_phase := by
    rw [hs1, E1]
    dsimp only
    rw [t0]
    norm_num
  have n1 : ¬ s1.transition = 0 := by rw [t1]; norm_num
  set s2 := SumoToy.step s1 (arr 1) with hs2
  have E2 := step_eq_transition_ne s1 (arr 1) n1
  have t2 : s2.transition = 2 := by rw [hs2, E2]; dsimp only; rw [t1]; norm_num
  have c2 : s2.cur_phase = s1.cur_phase := by rw [hs2, E2]
  have n2 : ¬ s2.transition = 0 := by rw [t2]; norm_num
  set s3 := SumoToy.step s2 (arr 2) with hs3
  have E3 := step_eq_transition_ne s2 (arr 2) n2
  have t3 : s3.transition = 1 := by rw [hs3, E3]; dsimp only; rw [t2]; norm_num
  have c3 : s3.cur_phase = s2.cur_phase := by rw [hs3, E3]
  have n3 : ¬ s3.transition = 0 := by rw [t3]; norm_num
  set s4 := SumoToy.step s3 (arr 3) with hs4
  have E4 := step_eq_transition_ne s3 (arr 3) n3
  have t4 : s4.transition = 0 := by rw [hs4, E4]; dsimp only; rw [t3]; norm_num
  have c4 : s4.cur_phase = s3.cur_phase := by rw [hs4, E4]
  have f4 : s4.t_in_phase = 0 := by
    rw [hs4, E4]
    dsimp only
    rw [t3]
    norm_num
  have cnew : s4.cur_phase = 1 - st.cur_phase := by
    rw [c4, c3, c2, c1, c0]
  refine ⟨served_transition_ne s0 (arr 0) n0, served_transition_ne s1 (arr 1) n1,
    served_transition_ne s2 (arr 2) n2, served_transition_ne s3 (arr 3) n3,
    t4, f4, cnew, ?_, ?_⟩
  · intro a ha
    rw [stepServed_transition_eq s4 (arr 4) t4]
    dsimp only
    rw [cnew, if_pos ha, serveApproach_served, applyArrival_q]
  · rw [SumoToy.step, stepServed_transition_eq s4 (arr 4) t4]
    dsimp only
    rw [f4]
    norm_num

/-- Witness for C6 at the reset state with no arrivals in any of the five
ticks. -/
theorem switch_transition_lock_witness :
    SumoToy.reset.transition = 0 ∧ transitionLockHolds SumoToy.reset (fun _ _ => 0) :=
  ⟨rfl, switch_transition_lock SumoToy.reset (fun _ _ => 0) rfl rfl rfl⟩

/-- C9: every name outside the preset registry makes `scenario_config`
return the unknown-scenario error (never a default configuration), and a
registered preset whose recording file is absent makes
`load_recorded_counts` return the recording-missing error, a constructor
distinct from the unknown-scenario error. -/
theorem scenario_errors_fail_fast (name : String) (h : findPreset name = none)
    (name2 : String) (preset : ScenarioPreset) (h2 : findPreset name2 = some preset)
    (filename : String) (hrec : preset.recording = some filename)
    (fileExists : String → Bool) (habs : fileExists filename = false) :
    scenario_config name = Except.error (ScenarioError.unknownScenario name) ∧
    load_recorded_counts fileExists name2 =
      Except.error (ScenarioError.recordingMissing filename) ∧
    (∀ n, ScenarioError.recordingMissing filename ≠ ScenarioError.unknownScenario n) := by
  refine ⟨?_, ?_, ?_⟩
  · unfold scenario_config
    rw [h]
  · unfold load_recorded_counts
    rw [h2]
    dsimp only
    rw [hrec]
    dsimp only
    rw [habs]
    rfl
  · intro n hcon
    exact ScenarioError.noConfusion hcon

/-- Witness for C9: the unregistered name and the first preset with an
always-absent filesystem. -/
theorem scenario_errors_fail_fast_witness :
    scenario_config "Night owl" =
      Except.error (ScenarioError.unknownScenario "Night owl") ∧
    load_recorded_counts (fun _ => false) "Morning peak" =
      Except.error (ScenarioError.recordingMissing "morning_peak.csv") ∧
    (∀ n, ScenarioError.recordingMissing "morning_peak.csv" ≠
      ScenarioError.unknownScenario n) :=
  scenario_errors_fail_fast "Night owl" rfl "Morning peak" morningPeak rfl
    "morning_peak.csv" rfl (fun _ => false) rfl

end Traffic
